import Mathlib

/-
Verification of the scoring adapter in
sdk/python/foundation-models/system/inference/text-generation/llama-files/score/hf-tgi/score.py.

The script is shallowly embedded: JSON values are modelled by the inductive
type JVal, the Python runtime operations the script relies on (dict.get,
dict subscripting, str.strip, json.dumps, the `in` operator) are modelled by
pyGet, pySubscript, pyStripStr, dumps and pyContains, and all Python
exceptions are modelled by `Except String` carrying the exception message
str(e). The backend text_generation.Client is an opaque collaborator and is
modelled by an arbitrary function of type Gen; the sequence of generate
calls a request makes is returned explicitly as a Trace.
-/

set_option autoImplicit false

namespace Score

/-- A parsed JSON (or YAML) document, as produced by json.loads / yaml.safe_load.
Objects are association lists with distinct keys; numbers are modelled as
integers (no claim touches non-integer numerics). -/
inductive JVal where
  | null
  | bool (b : Bool)
  | num (n : Int)
  | str (s : String)
  | arr (elts : List JVal)
  | obj (fields : List (String × JVal))

/-- The Python type name of a value, as it appears in AttributeError messages. -/
def typeName : JVal → String
  | JVal.null => "NoneType"
  | JVal.bool _ => "bool"
  | JVal.num _ => "int"
  | JVal.str _ => "str"
  | JVal.arr _ => "list"
  | JVal.obj _ => "dict"

/-- Truthiness of a Python value (`if mlmodel:`). -/
def truthy : JVal → Bool
  | JVal.null => false
  | JVal.bool b => b
  | JVal.num n => n != 0
  | JVal.str s => s != ""
  | JVal.arr l => !l.isEmpty
  | JVal.obj l => !l.isEmpty

/-- First-match lookup in an object's field list (dict keys are unique, so
first match is the dict lookup). -/
def dictLookup : List (String × JVal) → String → Option JVal
  | [], _ => none
  | (k, v) :: rest, key => if k == key then some v else dictLookup rest key

/-- dict.get(key, default): AttributeError on a non-dict receiver. -/
def pyGet (v : JVal) (key : String) (default : JVal) : Except String JVal :=
  match v with
  | JVal.obj kvs => Except.ok ((dictLookup kvs key).getD default)
  | other => Except.error ("\x27" ++ typeName other ++ "\x27 object has no attribute \x27get\x27")

/-- Subscripting v[key] with a string key: KeyError on a missing key,
TypeError on a non-dict receiver (message modelled generically; no claim
inspects it). -/
def pySubscript (v : JVal) (key : String) : Except String JVal :=
  match v with
  | JVal.obj kvs =>
    match dictLookup kvs key with
    | some x => Except.ok x
    | none => Except.error ("\x27" ++ key ++ "\x27")
  | other => Except.error ("\x27" ++ typeName other ++ "\x27 object is not subscriptable")

/-- Whitespace characters stripped by Python's str.strip (the ASCII ones;
exotic unicode space characters are out of scope of every claim). -/
def isPyWhitespace (c : Char) : Bool :=
  c == ' ' || c == '\t' || c == '\n' || c == '\r' || c.toNat == 11 || c.toNat == 12

/-- str.strip(): remove leading and trailing whitespace. -/
def pyStrip (s : String) : String :=
  String.mk (((s.toList.dropWhile isPyWhitespace).reverse.dropWhile isPyWhitespace).reverse)

/-- value.strip(): trims whitespace of a string, AttributeError otherwise. -/
def pyStripStr (v : JVal) : Except String String :=
  match v with
  | JVal.str s => Except.ok (pyStrip s)
  | other => Except.error ("\x27" ++ typeName other ++ "\x27 object has no attribute \x27strip\x27")

/-- Python equality test between a JSON value and a string literal
(conv["role"] == "user"): true only for an equal string. -/
def isRoleVal (r : JVal) (expect : String) : Bool :=
  match r with
  | JVal.str s => s == expect
  | _ => false

/-- Contiguous-sublist test, used to model Python's substring `in`. -/
def subListOf : List Char → List Char → Bool
  | needle, [] => needle.isEmpty
  | needle, hay@(_ :: tl) => List.isPrefixOf needle hay || subListOf needle tl

/-- The `in` operator, key containment: dict key membership, list membership
of the string, substring test on strings, TypeError otherwise. -/
def pyContains (key : String) (v : JVal) : Except String Bool :=
  match v with
  | JVal.obj kvs => Except.ok (kvs.any (fun p => p.1 == key))
  | JVal.arr xs => Except.ok (xs.any (fun x => isRoleVal x key))
  | JVal.str s => Except.ok (subListOf key.toList s.toList)
  | other => Except.error ("argument of type \x27" ++ typeName other ++ "\x27 is not iterable")

/-- Lower-case hex digit. -/
def hexDigit (n : Nat) : Char :=
  if n < 10 then Char.ofNat (48 + n) else Char.ofNat (97 + (n - 10))

/-- Four-digit lower-case hex rendering used in \x5cuXXXX escapes. -/
def hex4 (n : Nat) : String :=
  String.mk [hexDigit ((n / 4096) % 16), hexDigit ((n / 256) % 16),
             hexDigit ((n / 16) % 16), hexDigit (n % 16)]

/-- Escaping of a single character as json.dumps does with its default
ensure_ascii=True: quote, backslash and the short control escapes, \x5cuXXXX
for other control and non-ASCII characters, surrogate pairs above the BMP. -/
def escChar (c : Char) : String :=
  let n := c.toNat
  if n = 34 then "\x5c\x22"
  else if n = 92 then "\x5c\x5c"
  else if n = 10 then "\x5cn"
  else if n = 9 then "\x5ct"
  else if n = 13 then "\x5cr"
  else if n = 8 then "\x5cb"
  else if n = 12 then "\x5cf"
  else if n < 32 then "\x5cu" ++ hex4 n
  else if n < 127 then String.singleton c
  else if n < 65536 then "\x5cu" ++ hex4 n
  else "\x5cu" ++ hex4 (55296 + (n - 65536) / 1024) ++ "\x5cu" ++ hex4 (56320 + (n - 65536) % 1024)

/-- Escape a whole string for a JSON string literal. -/
def escString (s : String) : String :=
  String.join (s.toList.map escChar)

mutual

/-- json.dumps with Python's default separators: item separator comma-space,
key separator colon-space. -/
def dumps : JVal → String
  | JVal.null => "null"
  | JVal.bool b => if b then "true" else "false"
  | JVal.num n => toString n
  | JVal.str s => "\x22" ++ escString s ++ "\x22"
  | JVal.arr l => "[" ++ String.intercalate ", " (dumpsList l) ++ "]"
  | JVal.obj kvs => "\x7b" ++ String.intercalate ", " (dumpsFields kvs) ++ "\x7d"

/-- Rendered elements of a JSON array. -/
def dumpsList : List JVal → List String
  | [] => []
  | v :: vs => dumps v :: dumpsList vs

/-- Rendered key-value pairs of a JSON object. -/
def dumpsFields : List (String × JVal) → List String
  | [] => []
  | (k, v) :: kvs => ("\x22" ++ escString k ++ "\x22: " ++ dumps v) :: dumpsFields kvs

end

/-- A raw request payload handed to the scoring entry point: either a byte
string that is not valid JSON (json.loads raises, with message msg), or a
byte string that parses to the JSON value v. -/
inductive Raw where
  | invalid (msg : String)
  | val (v : JVal)

/-- json.loads on a raw payload. -/
def json_loads : Raw → Except String JVal
  | Raw.invalid msg => Except.error msg
  | Raw.val v => Except.ok v

namespace SupportedTask

/-- SupportedTask.TEXT_GENERATION. -/
def TEXT_GENERATION : String := "text-generation"

/-- SupportedTask.CHAT_COMPLETION. -/
def CHAT_COMPLETION : String := "chat-completion"

end SupportedTask

/-- Loop body of get_processed_input_data_for_chat_completion over
conv_arr[1:], carrying the running index i and the accumulated history.
Even offsets must be assistant turns (content appended followed by a
newline), odd offsets must be user turns (content wrapped in the [INST]
delimiters); a role mismatch is the script's AssertionError, whose str() is
empty. -/
def chatLoop : List JVal → Nat → String → Except String String
  | [], _, history => Except.ok history
  | conv :: tl, i, history =>
    match pySubscript conv "role" with
    | Except.error e => Except.error e
    | Except.ok r =>
      if i % 2 == 0 then
        if isRoleVal r "assistant" then
          match pySubscript conv "content" with
          | Except.error e => Except.error e
          | Except.ok cv =>
            match pyStripStr cv with
            | Except.error e => Except.error e
            | Except.ok cs => chatLoop tl (i + 1) (history ++ cs ++ "\n")
        else Except.error ""
      else
        if isRoleVal r "user" then
          match pySubscript conv "content" with
          | Except.error e => Except.error e
          | Except.ok cv =>
            match pyStripStr cv with
            | Except.error e => Except.error e
            | Except.ok cs => chatLoop tl (i + 1) (history ++ "[INST]" ++ cs ++ "[/INST]")
        else Except.error ""

/-- get_processed_input_data_for_chat_completion: asserts the transcript is
non-empty, that the first and last turns are user turns, and flattens the
turns into a single prompt; List.getLastD rest c0 is conv_arr[-1]. -/
def get_processed_input_data_for_chat_completion (data : List JVal) : Except String String :=
  match data with
  | [] => Except.error ""
  | c0 :: rest =>
    match pySubscript c0 "role" with
    | Except.error e => Except.error e
    | Except.ok r0 =>
      if isRoleVal r0 "user" then
        match pySubscript c0 "content" with
        | Except.error e => Except.error e
        | Except.ok cv =>
          match pyStripStr cv with
          | Except.error e => Except.error e
          | Except.ok c0s =>
            let history := "[INST]" ++ c0s ++ "[/INST]"
            match pySubscript (List.getLastD rest c0) "role" with
            | Except.error e => Except.error e
            | Except.ok rl =>
              if isRoleVal rl "user" then chatLoop rest 0 history
              else Except.error ""
      else Except.error ""

/-- The fixed usage-hint string of get_request_data's error envelope,
exactly as concatenated in the source. -/
def USAGE_HINT : String :=
  "Expected input format: \n" ++
  "\x7b\x22input_data\x22: \x7b\x22input_string\x22: \x22<query>\x22, \x22parameters\x22: \x7b\x22k1\x22:\x22v1\x22, \x22k2\x22:\x22v2\x22\x7d\x7d\x7d.\n " ++
  "<query> should be in below format:\n " ++
  "For text-generation: [\x22str1\x22, \x22str2\x22, ...]\n" ++
  "For chat-completion : [\x7b\x22role\x22: \x22user\x22, \x22content\x22: \x22str1\x22\x7d, \x7b\x22role\x22: \x22assistant\x22, \x22content\x22: \x22str2\x22\x7d ....]"

/-- The message of the exception get_request_data raises on failure:
json.dumps of the usage hint plus the underlying exception message. -/
def mkUsageError (m : String) : String :=
  dumps (JVal.obj [("error", JVal.str USAGE_HINT), ("exception", JVal.str m)])

/-- Body of get_request_data's try block: json.loads, data.get("input_data"),
the isinstance checks, and for chat-completion the transcript flattening.
Returns the query (a JSON list for text-generation, a flattened string for
chat-completion) together with the parameter fields. -/
def getRequestInner (task_type : String) (request_string : Raw) :
    Except String (JVal × List (String × JVal)) :=
  match json_loads request_string with
  | Except.error e => Except.error e
  | Except.ok data =>
    match pyGet data "input_data" JVal.null with
    | Except.error e => Except.error e
    | Except.ok inputs =>
      match inputs with
      | JVal.obj inner =>
        match dictLookup inner "input_string" with
        | none => Except.error "\x27input_string\x27"
        | some input_data =>
          let params := (dictLookup inner "parameters").getD (JVal.obj [])
          match input_data with
          | JVal.arr l =>
            match params with
            | JVal.obj kvs =>
              if task_type == SupportedTask.CHAT_COMPLETION then
                match get_processed_input_data_for_chat_completion l with
                | Except.error e => Except.error e
                | Except.ok s => Except.ok (JVal.str s, kvs)
              else Except.ok (JVal.arr l, kvs)
            | _ => Except.error "parameters is not a dict"
          | _ => Except.error "query is not a list"
      | _ => Except.error "Invalid input data"

/-- get_request_data: wraps any failure of the try block into a raised
Exception whose message is the dumped usage-hint envelope. -/
def get_request_data (task_type : String) (request_string : Raw) :
    Except String (JVal × List (String × JVal)) :=
  match getRequestInner task_type request_string with
  | Except.ok r => Except.ok r
  | Except.error e => Except.error (mkUsageError e)

/-- Keyword arguments forwarded to client.generate. -/
def GenParams := List (String × JVal)

/-- The backend client's generate RPC, an opaque collaborator: takes the
query (string for chat-completion, arbitrary list element for
text-generation) and the parameters, returns the generated text or raises. -/
def Gen := JVal → GenParams → Except String String

/-- The sequence of backend generate calls a request issued, in order. -/
def Trace := List (JVal × GenParams)

/-- The per-prompt fan-out loop of run for text-generation: one generate call
per prompt, sequentially, result objects keyed by the running str(index);
the trace records every call made, including a failing one. -/
def genLoop (g : Gen) (params : GenParams) : List JVal → Nat → Except String (List JVal) × Trace
  | [], _ => (Except.ok [], [])
  | q :: tl, i =>
    match g q params with
    | Except.error e => (Except.error e, [(q, params)])
    | Except.ok t =>
      match genLoop g params tl (i + 1) with
      | (Except.ok l, tr) => (Except.ok (JVal.obj [(toString i, JVal.str t)] :: l), (q, params) :: tr)
      | (Except.error e, tr) => (Except.error e, (q, params) :: tr)

/-- Body of run's try block, instrumented with the trace of backend calls:
fails if the client is uninitialized, parses the request, then dispatches
one call (chat-completion) or one call per prompt (text-generation); the
defensive assert's message is returned when the query is not a list or the
task type is not text-generation. -/
def runInner (client : Option Gen) (task_type : String) (raw : Raw) :
    Except String JVal × Trace :=
  match client with
  | none => (Except.error "Client is not initialized", [])
  | some g =>
    match get_request_data task_type raw with
    | Except.error e => (Except.error e, [])
    | Except.ok (query, params) =>
      if task_type == SupportedTask.CHAT_COMPLETION then
        match g query params with
        | Except.ok t => (Except.ok (JVal.obj [("0", JVal.str t)]), [(query, params)])
        | Except.error e => (Except.error e, [(query, params)])
      else
        match query with
        | JVal.arr l =>
          if task_type == SupportedTask.TEXT_GENERATION then
            match genLoop g params l 0 with
            | (Except.ok outs, tr) => (Except.ok (JVal.arr outs), tr)
            | (Except.error e, tr) => (Except.error e, tr)
          else (Except.error "query should be a list for text-generation", [])
        | _ => (Except.error "query should be a list for text-generation", [])

/-- run: json.dumps of the successful result, or of the catch-all error
envelope built from the caught exception's message. -/
def run (client : Option Gen) (task_type : String) (raw : Raw) : String :=
  match runInner client task_type raw with
  | (Except.ok v, _) => dumps v
  | (Except.error e, _) =>
    dumps (JVal.obj [("error", JVal.str "Error in processing request"), ("exception", JVal.str e)])

/-- WAIT_TIME of the liveness loop in is_server_healthy. -/
def WAIT_TIME : Nat := 20

/-- RETRY_COUNT of the liveness loop in is_server_healthy. -/
def RETRY_COUNT : Nat := 5

/-- The while loop of is_server_healthy: `present k` tells whether the
text-generation-launcher process is found at the k-th evaluation of the loop
condition. The loop increments count each iteration and its guard requires
count < RETRY_COUNT, so RETRY_COUNT units of fuel are exactly enough; the
returned value is the final count, which also equals the number of
WAIT_TIME sleeps performed. -/
def livenessLoop (present : Nat → Bool) : Nat → Nat → Nat
  | 0, count => count
  | fuel + 1, count =>
    if count < RETRY_COUNT && !present count then livenessLoop present fuel (count + 1)
    else count

/-- Final value of count after the liveness while loop. -/
def livenessFinalCount (present : Nat → Bool) : Nat :=
  livenessLoop present RETRY_COUNT 0

/-- is_server_healthy, for a given process-liveness history `present` and a
responsiveness-probe outcome `probe` (HTTP status code, or a raised request
exception). Returns the health verdict (or the fatal process-not-running
exception) paired with the total liveness wait performed, in seconds. The
probe request failure is caught and yields an unhealthy verdict, never an
exception. -/
def is_server_healthy (present : Nat → Bool) (probe : Except String Nat) :
    Except String Bool × Nat :=
  let count := livenessFinalCount present
  if RETRY_COUNT ≤ count then
    (Except.error ("Sever process not running after waiting for " ++
      toString (RETRY_COUNT * WAIT_TIME) ++ ". Terminating"), count * WAIT_TIME)
  else
    (match probe with
     | Except.ok code => Except.ok (code == 200 || code == 201)
     | Except.error _ => Except.ok false, count * WAIT_TIME)

/-- The task-type determination slice of init: `descriptor` is none when the
MLmodel file is absent, and some v when it exists and yaml.safe_load yields
v. Any error is fatal to startup (init re-raises it wrapped in its
catch-all Exception). -/
def initTaskType (descriptor : Option JVal) : Except String String :=
  let mlmodel := match descriptor with
    | none => JVal.obj []
    | some v => v
  if truthy mlmodel then
    match pyGet mlmodel "flavors" (JVal.obj []) with
    | Except.error e => Except.error e
    | Except.ok flavors =>
      match pyContains "hftransformersv2" flavors with
      | Except.error e => Except.error e
      | Except.ok b =>
        if b then
          match pySubscript flavors "hftransformersv2" with
          | Except.error e => Except.error e
          | Except.ok hf =>
            match pySubscript hf "task_type" with
            | Except.error e => Except.error e
            | Except.ok tt =>
              match tt with
              | JVal.str s =>
                if s == SupportedTask.TEXT_GENERATION || s == SupportedTask.CHAT_COMPLETION then
                  Except.ok s
                else Except.error ("Unsupported task_type " ++ s)
              | other => Except.error ("Unsupported task_type " ++ dumps other)
        else Except.ok SupportedTask.TEXT_GENERATION
  else Except.ok SupportedTask.TEXT_GENERATION

/-- A chat turn of the spec's data model: a role string and a content
string. -/
structure ChatTurn where
  role : String
  content : String
deriving DecidableEq, Repr

/-- The JSON object a chat turn arrives as on the wire. -/
def ChatTurn.toJVal (t : ChatTurn) : JVal :=
  JVal.obj [("role", JVal.str t.role), ("content", JVal.str t.content)]

/-- The flattener applied to a typed transcript. -/
def flattenTurns (ts : List ChatTurn) : Except String String :=
  get_processed_input_data_for_chat_completion (ts.map ChatTurn.toJVal)

/-- Rendering of one turn as the spec describes it: a user turn's trimmed
content wrapped in the [INST] delimiters, an assistant turn's trimmed
content followed by a newline. -/
def renderTurn (t : ChatTurn) : String :=
  if t.role == "user" then "[INST]" ++ pyStrip t.content ++ "[/INST]"
  else pyStrip t.content ++ "\n"

/-- Modelled from the spec: the flattened prompt is the concatenation of the
turn renderings in turn order. -/
def render : List ChatTurn → String
  | [] => ""
  | t :: tl => renderTurn t ++ render tl

/-- Roles of the turns after the first strictly alternate assistant, user,
assistant, user, starting from offset i. -/
def parityFrom : Nat → List ChatTurn → Bool
  | _, [] => true
  | i, t :: tl =>
    (t.role == (if i % 2 == 0 then "assistant" else "user")) && parityFrom (i + 1) tl

/-- The claim's alternation invariant: non-empty, first and last turn user,
turns after the first strictly alternating assistant, user, assistant, …. -/
def validTranscript : List ChatTurn → Bool
  | [] => false
  | t0 :: rest =>
    (t0.role == "user") && ((List.getLastD rest t0).role == "user") && parityFrom 0 rest

/-- The rendering chatLoop produces for the turns after the first, assuming
their roles follow the parity from offset i. -/
def renderRestAux : Nat → List ChatTurn → String
  | _, [] => ""
  | i, t :: tl =>
    (if i % 2 == 0 then pyStrip t.content ++ "\n" else "[INST]" ++ pyStrip t.content ++ "[/INST]") ++
      renderRestAux (i + 1) tl

/-- The malformed request shapes enumerated by the parser claim: top level
not an object, input_data missing or not an object, input_string missing or
not a sequence, or parameters present but not a mapping. -/
def badShape (v : JVal) : Bool :=
  match v with
  | JVal.obj kvs =>
    match dictLookup kvs "input_data" with
    | some (JVal.obj inner) =>
      match dictLookup inner "input_string" with
      | some (JVal.arr _) =>
        match dictLookup inner "parameters" with
        | some (JVal.obj _) => false
        | some _ => true
        | none => false
      | some _ => true
      | none => true
    | some _ => true
    | none => true
  | _ => true

/-- A well-shaped text-generation request payload with the given prompt list
and parameter fields. -/
def tgPayload (prompts : List JVal) (kvs : List (String × JVal)) : JVal :=
  JVal.obj [("input_data",
    JVal.obj [("input_string", JVal.arr prompts), ("parameters", JVal.obj kvs)])]

/-- A trivial backend client returning an empty generation. -/
def gZero : Gen := fun _ _ => Except.ok ""

/-- A raw payload whose JSON top level is not an object. -/
def rawNonObject : Raw := Raw.val (JVal.num 1)

/-- The parser's structured error payload for rawNonObject. -/
def parserErrorBytes : String :=
  mkUsageError "\x27int\x27 object has no attribute \x27get\x27"

/-- A model descriptor whose hftransformersv2 flavor lacks the task_type key. -/
def descriptorNoTaskType : JVal :=
  JVal.obj [("flavors", JVal.obj [("hftransformersv2", JVal.obj [])])]

/- ------------------------------------------------------------------ -/
/- Helper lemmas                                                      -/
/- ------------------------------------------------------------------ -/

lemma dictLookup_any (l : List (String × JVal)) (k : String) :
    l.any (fun p => p.1 == k) = (dictLookup l k).isSome := by
  induction l with
  | nil => rfl
  | cons p tl ih =>
    rcases p with ⟨k0, v0⟩
    by_cases h : k0 == k
    · simp [dictLookup, h]
    · simp [dictLookup, h, ih]

lemma livenessLoop_le (present : Nat → Bool) :
    ∀ fuel count, livenessLoop present fuel count ≤ count + fuel := by
  intro fuel
  induction fuel with
  | zero => intro count; simp [livenessLoop]
  | succ n ih =>
    intro count
    unfold livenessLoop
    split
    · exact le_trans (ih (count + 1)) (by omega)
    · omega

lemma livenessLoop_all_false (present : Nat → Bool) :
    ∀ fuel count, count + fuel ≤ livenessLoop present fuel count →
      ∀ j, count ≤ j → j < count + fuel → present j = false := by
  intro fuel
  induction fuel with
  | zero => intro count _ j h1 h2; omega
  | succ n ih =>
    intro count hle j h1 h2
    rw [livenessLoop] at hle
    by_cases hc : (decide (count < RETRY_COUNT) && !present count) = true
    · rw [if_pos hc] at hle
      rcases Nat.eq_or_lt_of_le h1 with heq | hlt
      · subst heq
        rcases Bool.and_eq_true_iff.mp hc with ⟨_, hp⟩
        simpa using hp
      · exact ih (count + 1) (by omega) j (by omega) (by omega)
    · rw [if_neg hc] at hle
      omega

lemma pySub_role (t : ChatTurn) :
    pySubscript t.toJVal "role" = Except.ok (JVal.str t.role) := rfl

lemma pySub_content (t : ChatTurn) :
    pySubscript t.toJVal "content" = Except.ok (JVal.str t.content) := rfl

lemma getLastD_map (tl : List ChatTurn) (c0 : ChatTurn) :
    List.getLastD (tl.map ChatTurn.toJVal) c0.toJVal = (List.getLastD tl c0).toJVal := by
  induction tl generalizing c0 with
  | nil => rfl
  | cons a tl ih =>
    simp only [List.map_cons, List.getLastD_cons]
    exact ih a

lemma getLast_getD_map (tl : List ChatTurn) (c0 : ChatTurn) :
    ((tl.map ChatTurn.toJVal).getLast?).getD c0.toJVal = (tl.getLast?.getD c0).toJVal := by
  have h := getLastD_map tl c0
  rw [List.getLastD_eq_getLast?, List.getLastD_eq_getLast?] at h
  exact h

lemma chatLoop_map (ts : List ChatTurn) : ∀ (i : Nat) (history : String),
    chatLoop (ts.map ChatTurn.toJVal) i history =
      if parityFrom i ts then Except.ok (history ++ renderRestAux i ts)
      else Except.error "" := by
  induction ts with
  | nil => intro i history; simp [chatLoop, parityFrom, renderRestAux]
  | cons t tl ih =>
    intro i history
    cases hi : i % 2 == 0 with
    | true =>
      cases hr : t.role == "assistant" with
      | true =>
        simp [chatLoop, pySub_role, pySub_content, pyStripStr, isRoleVal, parityFrom,
          renderRestAux, hi, hr, ih, String.append_assoc]
      | false =>
        simp [chatLoop, pySub_role, isRoleVal, parityFrom, hi, hr]
    | false =>
      cases hr : t.role == "user" with
      | true =>
        simp [chatLoop, pySub_role, pySub_content, pyStripStr, isRoleVal, parityFrom,
          renderRestAux, hi, hr, ih, String.append_assoc]
      | false =>
        simp [chatLoop, pySub_role, isRoleVal, parityFrom, hi, hr]

lemma renderRestAux_eq_render (ts : List ChatTurn) : ∀ i, parityFrom i ts = true →
    renderRestAux i ts = render ts := by
  induction ts with
  | nil => intro i _; rfl
  | cons t tl ih =>
    intro i h
    simp only [parityFrom, Bool.and_eq_true, beq_iff_eq] at h
    rcases h with ⟨h1, h2⟩
    by_cases hi : i % 2 = 0
    · rw [if_pos hi] at h1
      simp [renderRestAux, render, renderTurn, hi, h1, ih (i + 1) h2]
    · rw [if_neg hi] at h1
      simp [renderRestAux, render, renderTurn, beq_iff_eq, hi, h1, ih (i + 1) h2]

lemma flattenTurns_eq (ts : List ChatTurn) :
    flattenTurns ts =
      if validTranscript ts then Except.ok (render ts) else Except.error "" := by
  cases ts with
  | nil => rfl
  | cons t0 tl =>
    by_cases h0 : t0.role = "user"
    · by_cases h1 : (tl.getLast?.getD t0).role = "user"
      · cases h2 : parityFrom 0 tl with
        | false =>
          simp [flattenTurns, get_processed_input_data_for_chat_completion, pySub_role,
            pySub_content, pyStripStr, isRoleVal, getLastD_map, getLast_getD_map,
            chatLoop_map, validTranscript, h0, h1, h2]
        | true =>
          simp [flattenTurns, get_processed_input_data_for_chat_completion, pySub_role,
            pySub_content, pyStripStr, isRoleVal, getLastD_map, getLast_getD_map,
            chatLoop_map, validTranscript, h0, h1, h2,
            render, renderTurn, renderRestAux_eq_render tl 0 h2, String.append_assoc]
      · simp [flattenTurns, get_processed_input_data_for_chat_completion, pySub_role,
          pySub_content, pyStripStr, isRoleVal, getLastD_map, getLast_getD_map,
          validTranscript, h0, h1]
    · simp [flattenTurns, get_processed_input_data_for_chat_completion, pySub_role,
        isRoleVal, validTranscript, h0]

lemma genLoop_ok (g : Gen) (params : GenParams) (f : JVal → String) :
    ∀ (l : List JVal) (i : Nat), (∀ q ∈ l, g q params = Except.ok (f q)) →
      genLoop g params l i =
        (Except.ok ((List.enumFrom i l).map fun p =>
          JVal.obj [(toString p.1, JVal.str (f p.2))]),
         l.map fun q => (q, params)) := by
  intro l
  induction l with
  | nil => intro i _; rfl
  | cons q tl ih =>
    intro i h
    have hq : g q params = Except.ok (f q) := h q (List.mem_cons_self q tl)
    have htl : ∀ x ∈ tl, g x params = Except.ok (f x) :=
      fun x hx => h x (List.mem_cons_of_mem q hx)
    simp [genLoop, hq, ih (i + 1) htl, List.enumFrom_cons]

/- ------------------------------------------------------------------ -/
/- Claim theorems                                                     -/
/- ------------------------------------------------------------------ -/

/-- C4: for every transcript satisfying the alternation invariant, the
flattener succeeds and produces the concatenation, in turn order, of each
user turn's trimmed content wrapped in the [INST] delimiters and each
assistant turn's trimmed content followed by a newline. -/
theorem flatten_valid_transcript (ts : List ChatTurn) (h : validTranscript ts = true) :
    flattenTurns ts = Except.ok (render ts) := by
  rw [flattenTurns_eq, if_pos h]

/-- Witness for flatten_valid_transcript at the claim's two examples. -/
theorem flatten_valid_transcript_witness :
    validTranscript [⟨"user", "A"⟩] = true ∧
    flattenTurns [⟨"user", "A"⟩] = Except.ok "[INST]A[/INST]" ∧
    validTranscript [⟨"user", "A"⟩, ⟨"assistant", "B"⟩, ⟨"user", "C"⟩] = true ∧
    flattenTurns [⟨"user", "A"⟩, ⟨"assistant", "B"⟩, ⟨"user", "C"⟩] =
      Except.ok "[INST]A[/INST]B\n[INST]C[/INST]" :=
  ⟨rfl, (flatten_valid_transcript [⟨"user", "A"⟩] rfl).trans (by rfl), rfl,
   (flatten_valid_transcript [⟨"user", "A"⟩, ⟨"assistant", "B"⟩, ⟨"user", "C"⟩]
     rfl).trans (by rfl)⟩

/-- C5: every transcript violating the alternation invariant (empty, first
turn not user, last turn not user, or the turns after the first not
strictly alternating assistant, user, …) makes the flattener fail with the
assertion failure. -/
theorem flatten_invalid_transcript (ts : List ChatTurn) (h : validTranscript ts = false) :
    flattenTurns ts = Except.error "" := by
  rw [flattenTurns_eq]
  simp [h]

/-- Witness for flatten_invalid_transcript: a transcript whose first turn is
an assistant turn fails. -/
theorem flatten_invalid_transcript_witness :
    validTranscript [⟨"assistant", "A"⟩] = false ∧
    flattenTurns [⟨"assistant", "A"⟩] = Except.error "" :=
  ⟨rfl, flatten_invalid_transcript [⟨"assistant", "A"⟩] rfl⟩

/-- C1: for text-generation with an initialized client, for every prompt list
and parameter object, run issues one backend generate call per prompt, in
input order (the trace equals the prompt list paired with the parameters),
and the response is the ordered array whose i-th element is the single-key
object mapping str(i) to the text generated for the i-th prompt. Backend
calls are issued sequentially, so the order is structural and independent
of per-call latency. -/
theorem run_textgen_ordered (g : Gen) (f : JVal → String) (prompts : List JVal)
    (kvs : List (String × JVal)) (h : ∀ q ∈ prompts, g q kvs = Except.ok (f q)) :
    runInner (some g) SupportedTask.TEXT_GENERATION (Raw.val (tgPayload prompts kvs)) =
      (Except.ok (JVal.arr (prompts.enum.map fun p =>
         JVal.obj [(toString p.1, JVal.str (f p.2))])),
       prompts.map fun q => (q, kvs)) ∧
    run (some g) SupportedTask.TEXT_GENERATION (Raw.val (tgPayload prompts kvs)) =
      dumps (JVal.arr (prompts.enum.map fun p =>
        JVal.obj [(toString p.1, JVal.str (f p.2))])) := by
  have hparse : get_request_data SupportedTask.TEXT_GENERATION
      (Raw.val (tgPayload prompts kvs)) = Except.ok (JVal.arr prompts, kvs) := by
    simp [get_request_data, getRequestInner, json_loads, pyGet, tgPayload, dictLookup,
      SupportedTask.TEXT_GENERATION, SupportedTask.CHAT_COMPLETION]
  have hloop := genLoop_ok g kvs f prompts 0 h
  constructor
  · unfold runInner
    rw [hparse]
    simp [SupportedTask.TEXT_GENERATION, SupportedTask.CHAT_COMPLETION, hloop, List.enum]
  · unfold run runInner
    rw [hparse]
    simp [SupportedTask.TEXT_GENERATION, SupportedTask.CHAT_COMPLETION, hloop, List.enum]

/-- Witness for run_textgen_ordered on two concrete prompts. -/
theorem run_textgen_ordered_witness :
    runInner (some gZero) SupportedTask.TEXT_GENERATION
        (Raw.val (tgPayload [JVal.str "p0", JVal.str "p1"] [])) =
      (Except.ok (JVal.arr [JVal.obj [("0", JVal.str "")], JVal.obj [("1", JVal.str "")]]),
       [(JVal.str "p0", []), (JVal.str "p1", [])]) :=
  ((run_textgen_ordered gZero (fun _ => "") [JVal.str "p0", JVal.str "p1"] []
    (fun _ _ => rfl)).1).trans (by rfl)

/-- C7: for every raw payload and task type, run before initialization (the
client handle is not set) makes no backend call and returns exactly the
envelope with error "Error in processing request" and exception "Client is
not initialized". -/
theorem run_uninitialized (task_type : String) (raw : Raw) :
    runInner none task_type raw = (Except.error "Client is not initialized", []) ∧
    run none task_type raw =
      "\x7b\x22error\x22: \x22Error in processing request\x22, \x22exception\x22: \x22Client is not initialized\x22\x7d" :=
  ⟨rfl, rfl⟩

/-- C10: for text-generation with an initialized client, a request whose
input_string is the empty list is accepted: zero backend calls are made and
the response is the empty JSON array. -/
theorem run_empty_prompt_list (g : Gen) (kvs : List (String × JVal)) :
    runInner (some g) SupportedTask.TEXT_GENERATION (Raw.val (tgPayload [] kvs)) =
      (Except.ok (JVal.arr []), []) ∧
    run (some g) SupportedTask.TEXT_GENERATION (Raw.val (tgPayload [] kvs)) = "[]" :=
  ⟨rfl, rfl⟩

/-- C2: for every client state, task type, raw payload and backend behaviour,
run returns a string payload (it is a total function of the model), and the
only non-success response shape is the JSON object with exactly the keys
error and exception. -/
theorem run_total_error_shape (client : Option Gen) (task_type : String) (raw : Raw) :
    (∃ v, (runInner client task_type raw).1 = Except.ok v ∧
      run client task_type raw = dumps v) ∨
    (∃ e, (runInner client task_type raw).1 = Except.error e ∧
      run client task_type raw =
        dumps (JVal.obj [("error", JVal.str "Error in processing request"),
                         ("exception", JVal.str e)])) := by
  rcases h : runInner client task_type raw with ⟨res, tr⟩
  cases res with
  | ok v =>
    refine Or.inl ⟨v, rfl, ?_⟩
    unfold run
    rw [h]
  | error e =>
    refine Or.inr ⟨e, rfl, ?_⟩
    unfold run
    rw [h]

/-- C3 counterexample: on a payload whose top level is not an object, the
parser fails with its structured error payload, but run's response is not
that payload byte for byte (run wraps it in the outer catch-all envelope). -/
theorem run_not_parser_bytes :
    get_request_data SupportedTask.TEXT_GENERATION rawNonObject =
      Except.error parserErrorBytes ∧
    run (some gZero) SupportedTask.TEXT_GENERATION rawNonObject ≠ parserErrorBytes :=
  ⟨rfl, by
    set_option maxRecDepth 100000 in decide⟩

/-- C3 amended: when RequestParser.parse fails, run makes no backend call and
returns the catch-all envelope whose exception field holds the parser's
structured error payload verbatim. -/
theorem run_wraps_parser_error (g : Gen) (task_type : String) (raw : Raw) (e : String)
    (h : get_request_data task_type raw = Except.error e) :
    runInner (some g) task_type raw = (Except.error e, []) ∧
    run (some g) task_type raw =
      dumps (JVal.obj [("error", JVal.str "Error in processing request"),
                       ("exception", JVal.str e)]) := by
  constructor
  · unfold runInner
    rw [h]
  · unfold run runInner
    rw [h]

/-- Witness for run_wraps_parser_error at a concrete malformed payload. -/
theorem run_wraps_parser_error_witness :
    run (some gZero) SupportedTask.TEXT_GENERATION rawNonObject =
      dumps (JVal.obj [("error", JVal.str "Error in processing request"),
                       ("exception", JVal.str parserErrorBytes)]) :=
  (run_wraps_parser_error gZero SupportedTask.TEXT_GENERATION rawNonObject
    parserErrorBytes rfl).2

/-- C8: if the backend process is absent at every liveness check, the loop
performs exactly RETRY_COUNT = 5 attempts spaced WAIT_TIME = 20s apart and
raises the fatal process-not-running exception after a total wait of
RETRY_COUNT * WAIT_TIME = 100s; if the process is found within the budget,
no such exception is raised. -/
theorem liveness_retry_policy (present : Nat → Bool) (probe : Except String Nat) :
    ((∀ k, k < RETRY_COUNT → present k = false) →
      livenessFinalCount present = RETRY_COUNT ∧
      RETRY_COUNT * WAIT_TIME = 100 ∧
      is_server_healthy present probe =
        (Except.error "Sever process not running after waiting for 100. Terminating", 100)) ∧
    ((∃ k, k < RETRY_COUNT ∧ present k = true) →
      ∃ b, is_server_healthy present probe =
        (Except.ok b, livenessFinalCount present * WAIT_TIME)) := by
  constructor
  · intro h
    have hc : livenessFinalCount present = RETRY_COUNT := by
      simp [livenessFinalCount, livenessLoop, RETRY_COUNT,
        h 0 (by decide), h 1 (by decide), h 2 (by decide), h 3 (by decide), h 4 (by decide)]
    refine ⟨hc, rfl, ?_⟩
    unfold is_server_healthy
    rw [hc]
    rfl
  · intro h
    have hlt : livenessFinalCount present < RETRY_COUNT := by
      by_contra hge
      push_neg at hge
      rcases h with ⟨k, hk, hkt⟩
      have hall := livenessLoop_all_false present RETRY_COUNT 0
        (by simpa [livenessFinalCount] using hge) k (Nat.zero_le k) (by simpa using hk)
      rw [hall] at hkt
      exact Bool.false_ne_true hkt
    unfold is_server_healthy
    rw [if_neg (not_le.mpr hlt)]
    cases probe with
    | ok code => exact ⟨code == 200 || code == 201, rfl⟩
    | error e => exact ⟨false, rfl⟩

/-- Witness for liveness_retry_policy: a never-present process yields the
fatal error after 100s; an always-present process yields a health verdict. -/
theorem liveness_retry_policy_witness :
    is_server_healthy (fun _ => false) (Except.ok 200) =
      (Except.error "Sever process not running after waiting for 100. Terminating", 100) ∧
    ∃ b, is_server_healthy (fun _ => true) (Except.ok 200) =
      (Except.ok b, livenessFinalCount (fun _ => true) * WAIT_TIME) :=
  ⟨((liveness_retry_policy (fun _ => false) (Except.ok 200)).1 (fun _ _ => rfl)).2.2,
   (liveness_retry_policy (fun _ => true) (Except.ok 200)).2 ⟨0, by decide, rfl⟩⟩

/-- C9 counterexample: a descriptor whose hftransformersv2 flavor exists but
lacks the task_type key does not default the task type; initialization
fails with the KeyError, so startup fails on that account. -/
theorem init_missing_task_type_key_fatal :
    initTaskType (some descriptorNoTaskType) = Except.error "\x27task_type\x27" ∧
    (initTaskType (some descriptorNoTaskType)).isOk = false :=
  ⟨rfl, rfl⟩

/-- C9 amended: an absent descriptor, a descriptor without a flavors entry,
or one whose flavors lack the hftransformersv2 key default the task type to
text-generation without failing; if the flavor entry exists but holds no
task_type key, startup fails with the KeyError; an unrecognized task-type
string is fatal at startup. -/
theorem initTaskType_policy (kvs fl hf : List (String × JVal)) (s : String) :
    (initTaskType none = Except.ok SupportedTask.TEXT_GENERATION) ∧
    (dictLookup kvs "flavors" = none →
      initTaskType (some (JVal.obj kvs)) = Except.ok SupportedTask.TEXT_GENERATION) ∧
    (dictLookup kvs "flavors" = some (JVal.obj fl) →
      dictLookup fl "hftransformersv2" = none →
      initTaskType (some (JVal.obj kvs)) = Except.ok SupportedTask.TEXT_GENERATION) ∧
    (dictLookup kvs "flavors" = some (JVal.obj fl) →
      dictLookup fl "hftransformersv2" = some (JVal.obj hf) →
      dictLookup hf "task_type" = none →
      initTaskType (some (JVal.obj kvs)) = Except.error "\x27task_type\x27") ∧
    (dictLookup kvs "flavors" = some (JVal.obj fl) →
      dictLookup fl "hftransformersv2" = some (JVal.obj hf) →
      dictLookup hf "task_type" = some (JVal.str s) →
      s ≠ SupportedTask.TEXT_GENERATION → s ≠ SupportedTask.CHAT_COMPLETION →
      initTaskType (some (JVal.obj kvs)) =
        Except.error ("Unsupported task_type " ++ s)) := by
  refine ⟨rfl, ?_, ?_, ?_, ?_⟩
  · intro h1
    cases kvs with
    | nil => rfl
    | cons p tl =>
      simp [initTaskType, truthy, pyGet, h1, pyContains]
  · intro h1 h2
    cases kvs with
    | nil => simp [dictLookup] at h1
    | cons p tl =>
      simp [initTaskType, truthy, pyGet, h1, pyContains, dictLookup_any, h2]
  · intro h1 h2 h3
    cases kvs with
    | nil => simp [dictLookup] at h1
    | cons p tl =>
      simp [initTaskType, truthy, pyGet, h1, pyContains, dictLookup_any, h2,
        pySubscript, h3]
  · intro h1 h2 h3 h4 h5
    cases kvs with
    | nil => simp [dictLookup] at h1
    | cons p tl =>
      simp [initTaskType, truthy, pyGet, h1, pyContains, dictLookup_any, h2,
        pySubscript, h3, h4, h5]

/-- Witness for initTaskType_policy: an unrecognized task-type string in a
concrete descriptor is fatal. -/
theorem initTaskType_policy_witness :
    initTaskType (some (JVal.obj [("flavors", JVal.obj [("hftransformersv2",
        JVal.obj [("task_type", JVal.str "summarization")])])])) =
      Except.error ("Unsupported task_type " ++ "summarization") :=
  (initTaskType_policy [("flavors", JVal.obj [("hftransformersv2",
      JVal.obj [("task_type", JVal.str "summarization")])])]
    [("hftransformersv2", JVal.obj [("task_type", JVal.str "summarization")])]
    [("task_type", JVal.str "summarization")] "summarization").2.2.2.2
    rfl rfl rfl (by decide) (by decide)

/-- C6: for every task type and every payload matching one of the malformed
shapes (top level not an object, input_data missing or not an object,
input_string missing or not a sequence, parameters present but not a
mapping), parsing fails and the raised payload is the dumped envelope
holding the fixed usage hint and the underlying exception message. -/
theorem parse_bad_shape_envelope (task_type : String) (v : JVal) (h : badShape v = true) :
    ∃ m, get_request_data task_type (Raw.val v) = Except.error (mkUsageError m) := by
  cases v with
  | null => exact ⟨_, rfl⟩
  | bool b => exact ⟨_, rfl⟩
  | num n => exact ⟨_, rfl⟩
  | str s => exact ⟨_, rfl⟩
  | arr l => exact ⟨_, rfl⟩
  | obj kvs =>
    rcases h1 : dictLookup kvs "input_data" with _ | x
    · exact ⟨"Invalid input data",
        by simp [get_request_data, getRequestInner, json_loads, pyGet, h1]⟩
    · cases x with
      | obj inner =>
        rcases h2 : dictLookup inner "input_string" with _ | y
        · exact ⟨"\x27input_string\x27",
            by simp [get_request_data, getRequestInner, json_loads, pyGet, h1, h2]⟩
        · cases y with
          | arr l =>
            rcases h3 : dictLookup inner "parameters" with _ | p
            · simp [badShape, h1, h2, h3] at h
            · cases p with
              | obj pkvs => simp [badShape, h1, h2, h3] at h
              | null => exact ⟨"parameters is not a dict", by
                  simp [get_request_data, getRequestInner, json_loads, pyGet, h1, h2, h3]⟩
              | bool b => exact ⟨"parameters is not a dict", by
                  simp [get_request_data, getRequestInner, json_loads, pyGet, h1, h2, h3]⟩
              | num n => exact ⟨"parameters is not a dict", by
                  simp [get_request_data, getRequestInner, json_loads, pyGet, h1, h2, h3]⟩
              | str s => exact ⟨"parameters is not a dict", by
                  simp [get_request_data, getRequestInner, json_loads, pyGet, h1, h2, h3]⟩
              | arr l2 => exact ⟨"parameters is not a dict", by
                  simp [get_request_data, getRequestInner, json_loads, pyGet, h1, h2, h3]⟩
          | null => exact ⟨"query is not a list", by
              simp [get_request_data, getRequestInner, json_loads, pyGet, h1, h2]⟩
          | bool b => exact ⟨"query is not a list", by
              simp [get_request_data, getRequestInner, json_loads, pyGet, h1, h2]⟩
          | num n => exact ⟨"query is not a list", by
              simp [get_request_data, getRequestInner, json_loads, pyGet, h1, h2]⟩
          | str s => exact ⟨"query is not a list", by
              simp [get_request_data, getRequestInner, json_loads, pyGet, h1, h2]⟩
          | obj inner2 => exact ⟨"query is not a list", by
              simp [get_request_data, getRequestInner, json_loads, pyGet, h1, h2]⟩
      | null => exact ⟨"Invalid input data",
          by simp [get_request_data, getRequestInner, json_loads, pyGet, h1]⟩
      | bool b => exact ⟨"Invalid input data",
          by simp [get_request_data, getRequestInner, json_loads, pyGet, h1]⟩
      | num n => exact ⟨"Invalid input data",
          by simp [get_request_data, getRequestInner, json_loads, pyGet, h1]⟩
      | str s => exact ⟨"Invalid input data",
          by simp [get_request_data, getRequestInner, json_loads, pyGet, h1]⟩
      | arr l => exact ⟨"Invalid input data",
          by simp [get_request_data, getRequestInner, json_loads, pyGet, h1]⟩

/-- Witness for parse_bad_shape_envelope at a concrete non-object payload. -/
theorem parse_bad_shape_envelope_witness :
    ∃ m, get_request_data SupportedTask.TEXT_GENERATION (Raw.val (JVal.arr [])) =
      Except.error (mkUsageError m) :=
  parse_bad_shape_envelope SupportedTask.TEXT_GENERATION (JVal.arr []) rfl

end Score
